import Mathlib

/-!
Verification of the Disaster-Monitoring backend's cache store, geocoding
fallback orchestration, update-aggregation sort, and priority scoring,
as a shallow embedding of the JavaScript source.

Timestamps are modelled in milliseconds as integers (JS `Date.now()` and
ISO-8601 strings compare identically to their millisecond values).
The Supabase `cache` table is keyed by `key`, so the store is modelled as
a function from keys to optional rows.  Fallible storage operations take
explicit boolean fault flags standing for the underlying client throwing
or returning an `error` object.
-/

/-- Row of the `cache` table: a stored value with its absolute expiry
timestamp in milliseconds (column `expires_at`). -/
structure CacheRow (α : Type) where
  value : α
  expires_at : Int
deriving DecidableEq, Repr

/-- The cache table keyed by the unique `key` column. -/
def CacheStore (α : Type) : Type := String → Option (CacheRow α)

/-- A cache table with no rows. -/
def emptyStore (α : Type) : CacheStore α := fun _ => none

/-- Supabase `upsert`: insert or overwrite the row with the given key. -/
def upsertRow {α : Type} (s : CacheStore α) (key : String) (row : CacheRow α) :
    CacheStore α :=
  fun k => if k = key then some row else s k

/-- Supabase `delete().eq('key', key)`: remove the row with the given key. -/
def deleteRow {α : Type} (s : CacheStore α) (key : String) : CacheStore α :=
  fun k => if k = key then none else s k

/-- Embedding of `getFromCache` (src/unnamed/part_000 lines 120-148).
`configured` is whether the supabase client exists; `readFault` stands for
the select throwing or returning an error (the catch / `error || !data`
paths both yield `null`); `deleteFault` stands for the eager delete of an
expired row failing.  Returns the value handed to the caller and the
resulting store. -/
def getFromCache {α : Type} (configured : Bool) (s : CacheStore α)
    (readFault deleteFault : Bool) (now : Int) (key : String) :
    Option α × CacheStore α :=
  if configured = false then (none, s)
  else if readFault then (none, s)
  else
    match s key with
    | none => (none, s)
    | some row =>
      if row.expires_at < now then
        (none, if deleteFault then s else deleteRow s key)
      else
        (some row.value, s)

/-- Embedding of `setCache` (src/unnamed/part_000 lines 150-172).
Computes `expires_at = Date.now() + ttlSeconds * 1000` and upserts; when
the client is missing or the upsert fails the store is unchanged and no
error propagates. -/
def setCache {α : Type} (configured : Bool) (s : CacheStore α)
    (writeFault : Bool) (now : Int) (key : String) (value : α)
    (ttlSeconds : Int) : CacheStore α :=
  if configured = false then s
  else if writeFault then s
  else upsertRow s key ⟨value, now + ttlSeconds * 1000⟩

/-- Embedding of `cleanupExpiredCache` (src/unnamed/part_000 lines 175-194):
`delete().lt('expires_at', now)` removes exactly the rows whose expiry is
strictly before `now`; failures leave the store unchanged. -/
def cleanupExpiredCache {α : Type} (configured : Bool) (s : CacheStore α)
    (deleteFault : Bool) (now : Int) : CacheStore α :=
  if configured = false then s
  else if deleteFault then s
  else fun k =>
    match s k with
    | none => none
    | some row => if row.expires_at < now then none else some row

/-- C1 counterexample: with a write at time 0 and `ttlSeconds = 1`, a get
performed exactly at `now = write_time + ttl` (1000 ms) satisfies
`now >= write_time + ttl` yet still returns the stored value, because the
code's expiry test `new Date(data.expires_at) < new Date()` is strict. -/
theorem getFromCache_at_exact_expiry_returns_value :
    (0 : Int) + 1 * 1000 ≤ 1000 ∧
    (getFromCache true (setCache true (emptyStore Nat) false 0 "k" 42 1)
        false false 1000 "k").1 = some 42 := by
  refine ⟨by norm_num, ?_⟩
  simp [getFromCache, setCache, upsertRow, emptyStore]

/-- C1 (amended): for a value written at time `w` with `ttlSeconds = t`,
a get at `now <= w + t*1000` returns the stored value; a get at
`now > w + t*1000` returns absent and deletes the entry; and in general a
get never returns a value whose `expires_at` is strictly in the past. -/
theorem cacheExpiry_invariant (α : Type) (s : CacheStore α)
    (w ttl now : Int) (key : String) (v : α) :
    (now ≤ w + ttl * 1000 →
      getFromCache true (setCache true s false w key v ttl) false false now key
        = (some v, setCache true s false w key v ttl))
    ∧ (w + ttl * 1000 < now →
      getFromCache true (setCache true s false w key v ttl) false false now key
        = (none, deleteRow (setCache true s false w key v ttl) key))
    ∧ (∀ (s0 : CacheStore α) (v' : α),
        (getFromCache true s0 false false now key).1 = some v' →
        ∃ row, s0 key = some row ∧ v' = row.value ∧ ¬ row.expires_at < now) := by
  refine ⟨?_, ?_, ?_⟩
  · intro h
    simp [getFromCache, setCache, upsertRow, not_lt.mpr h]
  · intro h
    simp [getFromCache, setCache, upsertRow, h]
  · intro s0 v' h
    rcases h0 : s0 key with _ | row
    · simp [getFromCache, h0] at h
    · by_cases hexp : row.expires_at < now
      · simp [getFromCache, h0, hexp] at h
      · refine ⟨row, rfl, ?_, hexp⟩
        simp [getFromCache, h0, hexp] at h
        exact h.symm

/-- C1 witness: both directions of the amended expiry invariant at
concrete inputs (get at 500 ms returns the value written at 0 with a 1 s
TTL; get at 2000 ms is absent and deletes). -/
theorem cacheExpiry_invariant_witness :
    getFromCache true (setCache true (emptyStore Nat) false 0 "k" 7 1)
        false false 500 "k"
      = (some 7, setCache true (emptyStore Nat) false 0 "k" 7 1) ∧
    getFromCache true (setCache true (emptyStore Nat) false 0 "k" 7 1)
        false false 2000 "k"
      = (none, deleteRow (setCache true (emptyStore Nat) false 0 "k" 7 1) "k") :=
  ⟨(cacheExpiry_invariant Nat (emptyStore Nat) 0 1 500 "k" 7).1 (by norm_num),
   (cacheExpiry_invariant Nat (emptyStore Nat) 0 1 2000 "k" 7).2.1 (by norm_num)⟩

/-- C4: `setCache` computes `expires_at = now + ttlSeconds*1000` and
overwrites the existing row for the key (leaving other keys untouched);
after writing the same key twice, an unexpired get returns the second
value, and no get can ever return anything but the second value. -/
theorem setCache_upsert (α : Type) (s : CacheStore α)
    (now1 now2 getNow ttl1 ttl2 : Int) (key : String) (v1 v2 : α) :
    (setCache true s false now2 key v2 ttl2) key
        = some ⟨v2, now2 + ttl2 * 1000⟩
    ∧ (∀ k, k ≠ key → (setCache true s false now2 key v2 ttl2) k = s k)
    ∧ (getNow ≤ now2 + ttl2 * 1000 →
        (getFromCache true
            (setCache true (setCache true s false now1 key v1 ttl1)
              false now2 key v2 ttl2)
            false false getNow key).1 = some v2)
    ∧ (∀ v', (getFromCache true
            (setCache true (setCache true s false now1 key v1 ttl1)
              false now2 key v2 ttl2)
            false false getNow key).1 = some v' → v' = v2) := by
  refine ⟨?_, ?_, ?_, ?_⟩
  · simp [setCache, upsertRow]
  · intro k hk
    simp [setCache, upsertRow, hk]
  · intro h
    simp [getFromCache, setCache, upsertRow, not_lt.mpr h]
  · intro v' h
    by_cases hexp : (now2 + ttl2 * 1000 : Int) < getNow
    · simp [getFromCache, setCache, upsertRow, hexp] at h
    · simp [getFromCache, setCache, upsertRow, hexp] at h
      exact h.symm

/-- C4 witness: writing key "k" with 1 then 2 leaves expiry 3000 ms, other
keys untouched, and a get at 100 ms returns 2. -/
theorem setCache_upsert_witness :
    (setCache true (emptyStore Nat) false 0 "k" 2 3) "k" = some ⟨2, 0 + 3 * 1000⟩
    ∧ (setCache true (emptyStore Nat) false 0 "k" 2 3) "other" = emptyStore Nat "other"
    ∧ (getFromCache true
        (setCache true (setCache true (emptyStore Nat) false 0 "k" 1 3)
          false 0 "k" 2 3) false false 100 "k").1 = some 2 :=
  ⟨(setCache_upsert Nat (emptyStore Nat) 0 0 100 3 3 "k" 1 2).1,
   (setCache_upsert Nat (emptyStore Nat) 0 0 100 3 3 "k" 1 2).2.1 "other"
     (by decide),
   (setCache_upsert Nat (emptyStore Nat) 0 0 100 3 3 "k" 1 2).2.2.1
     (by norm_num)⟩

/-- C5: cache failures are soft.  A storage error during a read yields a
miss and leaves the store unchanged; a storage error during a write leaves
the store unchanged; a failing eager delete of an expired row still yields
a miss with the store unchanged.  Neither operation propagates an error
(both are total functions returning plain values). -/
theorem cacheFailures_soft (α : Type) (configured : Bool) (s : CacheStore α)
    (df : Bool) (now : Int) (key : String) (v : α) (ttl : Int) :
    getFromCache configured s true df now key = (none, s)
    ∧ setCache configured s true now key v ttl = s
    ∧ (∀ row, configured = true → s key = some row → row.expires_at < now →
        getFromCache configured s false true now key = (none, s)) := by
  refine ⟨?_, ?_, ?_⟩
  · cases configured <;> simp [getFromCache]
  · cases configured <;> simp [setCache]
  · intro row hc hrow hexp
    subst hc
    simp [getFromCache, hrow, hexp]

/-- C5 witness: concrete read fault, write fault, and failing delete of an
expired row, all swallowed. -/
theorem cacheFailures_soft_witness :
    getFromCache true (emptyStore Nat) true false 0 "k" = (none, emptyStore Nat)
    ∧ setCache true (emptyStore Nat) true 0 "k" 5 60 = emptyStore Nat
    ∧ getFromCache true (upsertRow (emptyStore Nat) "k" ⟨5, 10⟩) false true 99 "k"
        = (none, upsertRow (emptyStore Nat) "k" ⟨5, 10⟩) :=
  ⟨(cacheFailures_soft Nat true (emptyStore Nat) false 0 "k" 5 60).1,
   (cacheFailures_soft Nat true (emptyStore Nat) false 0 "k" 5 60).2.1,
   (cacheFailures_soft Nat true (upsertRow (emptyStore Nat) "k" ⟨5, 10⟩)
      true 99 "k" 5 60).2.2 ⟨5, 10⟩ rfl (by simp [upsertRow]) (by norm_num)⟩

/-- C9: `cleanupExpiredCache` removes exactly the rows whose `expires_at`
is strictly before `now`, leaves every other row unchanged, and is
idempotent at a fixed `now`. -/
theorem cleanup_exact_and_idempotent (α : Type) (s : CacheStore α) (now : Int) :
    (∀ k row, s k = some row → row.expires_at < now →
        cleanupExpiredCache true s false now k = none)
    ∧ (∀ k row, s k = some row → ¬ row.expires_at < now →
        cleanupExpiredCache true s false now k = some row)
    ∧ (∀ k, s k = none → cleanupExpiredCache true s false now k = none)
    ∧ cleanupExpiredCache true (cleanupExpiredCache true s false now) false now
        = cleanupExpiredCache true s false now := by
  refine ⟨?_, ?_, ?_, ?_⟩
  · intro k row hrow hexp
    simp [cleanupExpiredCache, hrow, hexp]
  · intro k row hrow hexp
    simp [cleanupExpiredCache, hrow, hexp]
  · intro k hk
    simp [cleanupExpiredCache, hk]
  · funext k
    rcases hk : s k with _ | row
    · simp [cleanupExpiredCache, hk]
    · by_cases hexp : row.expires_at < now
      · simp [cleanupExpiredCache, hk, hexp]
      · simp [cleanupExpiredCache, hk, hexp]

/-- C9 witness: in a two-row store at `now = 10`, the expired row (expiry
5) is removed and the live row (expiry 100) is kept. -/
theorem cleanup_exact_and_idempotent_witness :
    cleanupExpiredCache true
        (upsertRow (upsertRow (emptyStore Nat) "a" ⟨1, 5⟩) "b" ⟨2, 100⟩)
        false 10 "a" = none
    ∧ cleanupExpiredCache true
        (upsertRow (upsertRow (emptyStore Nat) "a" ⟨1, 5⟩) "b" ⟨2, 100⟩)
        false 10 "b" = some ⟨2, 100⟩ :=
  ⟨(cleanup_exact_and_idempotent Nat
      (upsertRow (upsertRow (emptyStore Nat) "a" ⟨1, 5⟩) "b" ⟨2, 100⟩) 10).1
      "a" ⟨1, 5⟩ (by simp [upsertRow]) (by norm_num),
   (cleanup_exact_and_idempotent Nat
      (upsertRow (upsertRow (emptyStore Nat) "a" ⟨1, 5⟩) "b" ⟨2, 100⟩) 10).2.1
      "b" ⟨2, 100⟩ (by simp [upsertRow]) (by norm_num)⟩

/-- C10: with no supabase client configured, every read misses and every
write is a no-op, so a get immediately after a set of the same key still
returns absent — the cache offers no read-your-writes guarantee. -/
theorem unconfigured_cache_no_read_your_writes (α : Type) (s : CacheStore α)
    (rf df wf : Bool) (now now2 : Int) (key : String) (v : α) (ttl : Int) :
    getFromCache false s rf df now key = (none, s)
    ∧ setCache false s wf now2 key v ttl = s
    ∧ (getFromCache false (setCache false s wf now2 key v ttl)
        rf df now key).1 = none := by
  refine ⟨by simp [getFromCache], by simp [setCache], by simp [getFromCache]⟩

/-!
Geocoding fallback orchestration (src/services/geocoding.js).
Provider invocations are I/O; they are modelled as an oracle mapping each
provider to a result or a thrown error.  `geocodeLocation` is translated
branch for branch from the nested try/catch control flow of lines 159-197,
additionally recording the list of providers actually invoked, in order.
-/

/-- The three geocoding providers, in the source's fixed fallback order. -/
inductive Provider where
  | google
  | mapbox
  | osm
deriving DecidableEq, Repr

/-- Normalized geocoding result record. -/
structure GeoResult where
  locationName : String
  latitude : ℚ
  longitude : ℚ
  formattedAddress : String
  confidence : String
  provider : String
  error : Option String := none
deriving DecidableEq, Repr

/-- Degraded mock result built in the outer catch of `geocodeLocation`
(lines 186-195): NYC reference point plus jitter from two `Math.random()`
draws in `[0,1)`. -/
def mockGeoResult (locationName : String) (jitterLat jitterLon : ℚ) : GeoResult :=
  { locationName := locationName
    latitude := 40.7128 + (jitterLat - 0.5) * 0.1
    longitude := -74.0060 + (jitterLon - 0.5) * 0.1
    formattedAddress := locationName ++ " (Mock Location)"
    confidence := "low"
    provider := "mock"
    error := some "All geocoding providers failed" }

/-- Embedding of `GeocodingService.geocodeLocation` (lines 159-197).
`googleConfigured` / `mapboxConfigured` model the presence of
`GOOGLE_MAPS_API_KEY` / `MAPBOX_ACCESS_TOKEN`; `call` is the provider
invocation oracle.  Returns the result together with the providers
invoked, in invocation order. -/
def geocodeLocation (googleConfigured mapboxConfigured : Bool)
    (call : Provider → Except String GeoResult)
    (locationName : String) (jitterLat jitterLon : ℚ) :
    GeoResult × List Provider :=
  if googleConfigured then
    match call Provider.google with
    | Except.ok r => (r, [Provider.google])
    | Except.error _ =>
      if mapboxConfigured then
        match call Provider.mapbox with
        | Except.ok r => (r, [Provider.google, Provider.mapbox])
        | Except.error _ =>
          match call Provider.osm with
          | Except.ok r => (r, [Provider.google, Provider.mapbox, Provider.osm])
          | Except.error _ =>
            (mockGeoResult locationName jitterLat jitterLon,
              [Provider.google, Provider.mapbox, Provider.osm])
      else
        match call Provider.osm with
        | Except.ok r => (r, [Provider.google, Provider.osm])
        | Except.error _ =>
          (mockGeoResult locationName jitterLat jitterLon,
            [Provider.google, Provider.osm])
  else
    if mapboxConfigured then
      match call Provider.mapbox with
      | Except.ok r => (r, [Provider.mapbox])
      | Except.error _ =>
        match call Provider.osm with
        | Except.ok r => (r, [Provider.mapbox, Provider.osm])
        | Except.error _ =>
          (mockGeoResult locationName jitterLat jitterLon,
            [Provider.mapbox, Provider.osm])
    else
      match call Provider.osm with
      | Except.ok r => (r, [Provider.osm])
      | Except.error _ =>
        (mockGeoResult locationName jitterLat jitterLon, [Provider.osm])

/-- C2: providers are tried in the fixed order Google, Mapbox, OSM; a
provider without its credential is skipped (Google and Mapbox are gated,
OSM is not); the first success is returned immediately and no later
provider is invoked; on a failure the orchestration advances to the next
provider. -/
theorem geocodeLocation_fallback_order (g m : Bool)
    (call : Provider → Except String GeoResult) (loc : String) (jl jlo : ℚ) :
    ((geocodeLocation g m call loc jl jlo).2).Sublist
        [Provider.google, Provider.mapbox, Provider.osm]
    ∧ (g = false → Provider.google ∉ (geocodeLocation g m call loc jl jlo).2)
    ∧ (m = false → Provider.mapbox ∉ (geocodeLocation g m call loc jl jlo).2)
    ∧ (g = true → Provider.google ∈ (geocodeLocation g m call loc jl jlo).2)
    ∧ (∀ r, g = true → call Provider.google = Except.ok r →
        geocodeLocation g m call loc jl jlo = (r, [Provider.google]))
    ∧ (∀ r, Provider.mapbox ∈ (geocodeLocation g m call loc jl jlo).2 →
        call Provider.mapbox = Except.ok r →
        (geocodeLocation g m call loc jl jlo).1 = r ∧
        Provider.osm ∉ (geocodeLocation g m call loc jl jlo).2)
    ∧ (∀ r, Provider.osm ∈ (geocodeLocation g m call loc jl jlo).2 →
        call Provider.osm = Except.ok r →
        (geocodeLocation g m call loc jl jlo).1 = r)
    ∧ (∀ e, g = true → m = true → call Provider.google = Except.error e →
        Provider.mapbox ∈ (geocodeLocation g m call loc jl jlo).2)
    ∧ (∀ e, g = true → m = false → call Provider.google = Except.error e →
        Provider.osm ∈ (geocodeLocation g m call loc jl jlo).2)
    ∧ (∀ e, Provider.mapbox ∈ (geocodeLocation g m call loc jl jlo).2 →
        call Provider.mapbox = Except.error e →
        Provider.osm ∈ (geocodeLocation g m call loc jl jlo).2) := by
  cases g <;> cases m <;>
    rcases hG : call Provider.google with rG | eG <;>
    rcases hM : call Provider.mapbox with rM | eM <;>
    rcases hO : call Provider.osm with rO | eO <;>
    refine ⟨by simp [geocodeLocation, hG, hM, hO], ?_, ?_, ?_, ?_, ?_, ?_, ?_, ?_, ?_⟩ <;>
    simp [geocodeLocation, hG, hM, hO]

/-- C2 witness: with both credentials set, Google failing and Mapbox
succeeding, the orchestration returns Mapbox's result and never invokes
OSM. -/
theorem geocodeLocation_fallback_order_witness :
    (geocodeLocation true true
        (fun p => match p with
          | Provider.google => Except.error "quota"
          | Provider.mapbox => Except.ok
              { locationName := "x", latitude := 1, longitude := 2,
                formattedAddress := "x", confidence := "high",
                provider := "mapbox", error := none }
          | Provider.osm => Except.error "down")
        "x" 0 0).1
      = { locationName := "x", latitude := 1, longitude := 2,
          formattedAddress := "x", confidence := "high",
          provider := "mapbox", error := none }
    ∧ Provider.osm ∉ (geocodeLocation true true
        (fun p => match p with
          | Provider.google => Except.error "quota"
          | Provider.mapbox => Except.ok
              { locationName := "x", latitude := 1, longitude := 2,
                formattedAddress := "x", confidence := "high",
                provider := "mapbox", error := none }
          | Provider.osm => Except.error "down")
        "x" 0 0).2 :=
  (geocodeLocation_fallback_order true true
      (fun p => match p with
        | Provider.google => Except.error "quota"
        | Provider.mapbox => Except.ok
            { locationName := "x", latitude := 1, longitude := 2,
              formattedAddress := "x", confidence := "high",
              provider := "mapbox", error := none }
        | Provider.osm => Except.error "down")
      "x" 0 0).2.2.2.2.2.1
    { locationName := "x", latitude := 1, longitude := 2,
      formattedAddress := "x", confidence := "high",
      provider := "mapbox", error := none }
    (by decide) rfl

/-- C3: when every provider fails, `geocodeLocation` returns (rather than
throws) the degraded mock result: provider "mock", confidence "low", an
explicit error field, and coordinates within 0.05 degrees of the fixed
NYC reference point (40.7128, -74.0060) when the jitter draws lie in
[0,1]. -/
theorem geocodeLocation_total_exhaustion (g m : Bool)
    (call : Provider → Except String GeoResult) (loc : String) (jl jlo : ℚ)
    (hfail : ∀ p, ∃ e, call p = Except.error e) :
    (geocodeLocation g m call loc jl jlo).1 = mockGeoResult loc jl jlo
    ∧ (geocodeLocation g m call loc jl jlo).1.provider = "mock"
    ∧ (geocodeLocation g m call loc jl jlo).1.confidence = "low"
    ∧ (geocodeLocation g m call loc jl jlo).1.error
        = some "All geocoding providers failed"
    ∧ (0 ≤ jl → jl ≤ 1 →
        |(geocodeLocation g m call loc jl jlo).1.latitude - 40.7128| ≤ 1/20)
    ∧ (0 ≤ jlo → jlo ≤ 1 →
        |(geocodeLocation g m call loc jl jlo).1.longitude - (-74.0060)| ≤ 1/20) := by
  obtain ⟨eG, hG⟩ := hfail Provider.google
  obtain ⟨eM, hM⟩ := hfail Provider.mapbox
  obtain ⟨eO, hO⟩ := hfail Provider.osm
  have hres : (geocodeLocation g m call loc jl jlo).1 = mockGeoResult loc jl jlo := by
    cases g <;> cases m <;> simp [geocodeLocation, hG, hM, hO]
  refine ⟨hres, by rw [hres]; rfl, by rw [hres]; rfl, by rw [hres]; rfl, ?_, ?_⟩
  · intro h0 h1
    rw [hres]
    have : (mockGeoResult loc jl jlo).latitude - 40.7128 = (jl - 0.5) * 0.1 := by
      simp [mockGeoResult]
    rw [this, abs_mul]
    have hj : |jl - 0.5| ≤ 0.5 := by
      rw [abs_le]; constructor <;> linarith
    have h01 : |(0.1 : ℚ)| = 0.1 := by norm_num
    rw [h01]
    nlinarith [hj]
  · intro h0 h1
    rw [hres]
    have : (mockGeoResult loc jl jlo).longitude - (-74.0060) = (jlo - 0.5) * 0.1 := by
      simp [mockGeoResult]
    rw [this, abs_mul]
    have hj : |jlo - 0.5| ≤ 0.5 := by
      rw [abs_le]; constructor <;> linarith
    have h01 : |(0.1 : ℚ)| = 0.1 := by norm_num
    rw [h01]
    nlinarith [hj]

/-- C3 witness: with both credentials set and every provider failing, the
concrete call returns the mock result with its marker fields, and the
jitter bound holds at draws of 0. -/
theorem geocodeLocation_total_exhaustion_witness :
    (geocodeLocation true true (fun _ => Except.error "down") "x" 0 0).1
        = mockGeoResult "x" 0 0
    ∧ (geocodeLocation true true (fun _ => Except.error "down") "x" 0 0).1.provider
        = "mock"
    ∧ |(geocodeLocation true true (fun _ => Except.error "down") "x" 0 0).1.latitude
        - 40.7128| ≤ 1/20 := by
  have h := geocodeLocation_total_exhaustion true true
    (fun _ => Except.error "down") "x" 0 0 (fun p => ⟨"down", rfl⟩)
  exact ⟨h.1, h.2.1, h.2.2.2.2.1 (by norm_num) (by norm_num)⟩

/-!
Update aggregation sort (src/services/officialUpdates.js lines 112-119).
The comparator sorts primarily by priority rank descending
(`priorityOrder = critical:3, high:2, medium:1, low:0`) and secondarily by
`published_at` descending.  `Array.prototype.sort` with a consistent
comparator produces a permutation ordered by the comparator; it is
modelled by a stable insertion sort over the induced total preorder.
-/

/-- Priority levels carried by official updates. -/
inductive UpdatePriority where
  | critical
  | high
  | medium
  | low
deriving DecidableEq, Repr

/-- The comparator's `priorityOrder` map (line 114). -/
def priorityOrder : UpdatePriority → Nat
  | UpdatePriority.critical => 3
  | UpdatePriority.high => 2
  | UpdatePriority.medium => 1
  | UpdatePriority.low => 0

/-- Fields of an official update used by the aggregation sort. -/
structure OfficialUpdate where
  id : String
  source : String
  priority : UpdatePriority
  published_at : Int
deriving DecidableEq, Repr

/-- Induced order of the comparator at lines 113-119: `a` sorts no later
than `b` when `a` has strictly higher priority rank, or equal rank and a
newer-or-equal timestamp. -/
def updateBefore (a b : OfficialUpdate) : Prop :=
  priorityOrder b.priority < priorityOrder a.priority
  ∨ (priorityOrder a.priority = priorityOrder b.priority
      ∧ b.published_at ≤ a.published_at)

instance : DecidableRel updateBefore := fun a b => by
  unfold updateBefore
  infer_instance

instance : IsTotal OfficialUpdate updateBefore := by
  refine ⟨fun a b => ?_⟩
  unfold updateBefore
  omega

instance : IsTrans OfficialUpdate updateBefore := by
  refine ⟨fun a b c hab hbc => ?_⟩
  unfold updateBefore at hab hbc ⊢
  omega

/-- The sort applied to the filtered updates in `fetchOfficialUpdates`. -/
def sortUpdates (l : List OfficialUpdate) : List OfficialUpdate :=
  List.insertionSort updateBefore l

/-- C6: the aggregation's sorted output is a permutation of its input
ordered primarily by priority rank descending and secondarily by
published timestamp descending; in particular any critical item precedes
every non-critical item regardless of timestamps. -/
theorem sortUpdates_two_key_contract (l : List OfficialUpdate) :
    List.Sorted updateBefore (sortUpdates l)
    ∧ List.Perm (sortUpdates l) l
    ∧ (∀ i j : Fin (sortUpdates l).length, (i : Nat) < (j : Nat) →
        priorityOrder ((sortUpdates l).get j).priority
          ≤ priorityOrder ((sortUpdates l).get i).priority)
    ∧ (∀ i j : Fin (sortUpdates l).length, (i : Nat) < (j : Nat) →
        ((sortUpdates l).get i).priority = ((sortUpdates l).get j).priority →
        ((sortUpdates l).get j).published_at
          ≤ ((sortUpdates l).get i).published_at)
    ∧ (∀ i j : Fin (sortUpdates l).length,
        ((sortUpdates l).get i).priority ≠ UpdatePriority.critical →
        ((sortUpdates l).get j).priority = UpdatePriority.critical →
        (j : Nat) < (i : Nat)) := by
  have hsorted : List.Sorted updateBefore (sortUpdates l) :=
    List.sorted_insertionSort updateBefore l
  have hrank : ∀ i j : Fin (sortUpdates l).length, (i : Nat) < (j : Nat) →
      priorityOrder ((sortUpdates l).get j).priority
        ≤ priorityOrder ((sortUpdates l).get i).priority := by
    intro i j hij
    have h := hsorted.rel_get_of_lt (a := i) (b := j) (by exact hij)
    unfold updateBefore at h
    omega
  refine ⟨hsorted, List.perm_insertionSort updateBefore l, hrank, ?_, ?_⟩
  · intro i j hij heq
    have h := hsorted.rel_get_of_lt (a := i) (b := j) (by exact hij)
    unfold updateBefore at h
    rcases h with h | h
    · rw [heq] at h
      omega
    · exact h.2
  · intro i j hi hj
    rcases Nat.lt_trichotomy (j : Nat) (i : Nat) with h | h | h
    · exact h
    · exfalso
      apply hi
      have : i = j := Fin.ext h.symm
      rw [this, hj]
    · exfalso
      have hle := hrank i j h
      rw [hj] at hle
      have h3 : priorityOrder ((sortUpdates l).get i).priority ≤ 2 := by
        rcases hp : ((sortUpdates l).get i).priority with _ | _ | _ | _
        · exact absurd hp hi
        · simp [priorityOrder]
        · simp [priorityOrder]
        · simp [priorityOrder]
      have hc3 : priorityOrder UpdatePriority.critical = 3 := rfl
      omega

/-- C6 witness: a low item newest, a critical item oldest and a high item
in between sort to critical, high, low. -/
theorem sortUpdates_two_key_contract_witness :
    List.Sorted updateBefore (sortUpdates
      [⟨"u1", "a", UpdatePriority.low, 300⟩,
       ⟨"u2", "b", UpdatePriority.critical, 10⟩,
       ⟨"u3", "c", UpdatePriority.high, 200⟩])
    ∧ sortUpdates
      [⟨"u1", "a", UpdatePriority.low, 300⟩,
       ⟨"u2", "b", UpdatePriority.critical, 10⟩,
       ⟨"u3", "c", UpdatePriority.high, 200⟩]
      = [⟨"u2", "b", UpdatePriority.critical, 10⟩,
         ⟨"u3", "c", UpdatePriority.high, 200⟩,
         ⟨"u1", "a", UpdatePriority.low, 300⟩]
    ∧ (0 : Nat) < 2 :=
  ⟨(sortUpdates_two_key_contract
      [⟨"u1", "a", UpdatePriority.low, 300⟩,
       ⟨"u2", "b", UpdatePriority.critical, 10⟩,
       ⟨"u3", "c", UpdatePriority.high, 200⟩]).1,
   by decide,
   (sortUpdates_two_key_contract
      [⟨"u1", "a", UpdatePriority.low, 300⟩,
       ⟨"u2", "b", UpdatePriority.critical, 10⟩,
       ⟨"u3", "c", UpdatePriority.high, 200⟩]).2.2.2.2
     ⟨2, by decide⟩ ⟨0, by decide⟩ (by decide) (by decide)⟩

/-!
Priority scoring for social-media posts
(src/services/socialMedia.js lines 143-172): base 5, plus urgency weight,
content-type weights, urgent-keyword hits, and engagement bonuses,
capped at 10 by `Math.min`.
-/

/-- Engagement counters of a post. -/
structure Engagement where
  likes : Nat
  retweets : Nat
  replies : Nat
deriving DecidableEq, Repr

/-- Fields of a social-media post used by the priority scorer. -/
structure SocialPost where
  content : String
  engagement : Engagement
deriving DecidableEq, Repr

/-- Classification output fields consumed by the scorer. -/
structure ContentAnalysis where
  urgency : String
  contentType : String
deriving DecidableEq, Repr

/-- The urgent keyword list at line 159. -/
def urgentKeywords : List String :=
  ["SOS", "urgent", "emergency", "help", "rescue", "trapped"]

/-- Substring test over character lists, modelling JS `String.includes`. -/
def containsSub (needle : List Char) : List Char → Bool
  | [] => needle.isEmpty
  | c :: t => needle.isPrefixOf (c :: t) || containsSub needle t

/-- Case-insensitive `content.toLowerCase().includes(keyword.toLowerCase())`. -/
def lowerIncludes (content keyword : String) : Bool :=
  containsSub keyword.toLower.data content.toLower.data

/-- Total engagement of a post (line 166). -/
def totalEngagement (e : Engagement) : Nat :=
  e.likes + e.retweets + e.replies

/-- Embedding of `SocialMediaService.calculatePriority` (lines 143-172).
The sequential `priority +=` updates are written as one sum; the JS
`switch` on urgency is an exact-string dispatch. -/
def calculatePriority (post : SocialPost) (analysis : ContentAnalysis) : Nat :=
  Nat.min
    (5
      + (if analysis.urgency = "critical" then 4
         else if analysis.urgency = "high" then 3
         else if analysis.urgency = "medium" then 2
         else if analysis.urgency = "low" then 1
         else 0)
      + (if analysis.contentType = "help_request" then 2 else 0)
      + (if analysis.contentType = "emergency_alert" then 3 else 0)
      + (urgentKeywords.filter (fun k => lowerIncludes post.content k)).length
      + (if totalEngagement post.engagement > 50 then 1 else 0)
      + (if totalEngagement post.engagement > 100 then 1 else 0))
    10

/-- C7: for every post and analysis, the priority score lies within
[5, 10] inclusive, 10 being the clamped maximum and 5 the base score. -/
theorem calculatePriority_bounds (post : SocialPost) (analysis : ContentAnalysis) :
    5 ≤ calculatePriority post analysis ∧ calculatePriority post analysis ≤ 10 := by
  unfold calculatePriority
  constructor
  · refine Nat.le_min.mpr ⟨?_, by norm_num⟩
    split_ifs <;> omega
  · exact Nat.min_le_right _ _

/-!
Geocoding cache keys (src/services/geocoding.js lines 9, 59, 109, 201).
Forward keys are `geocode_<provider>_<base64(locationName)>` where the
base64 encoding is over the UTF-8 bytes of the location text
(JS `Buffer.from(locationName).toString('base64')`); reverse keys are
`reverse_geocode_<latitude>_<longitude>` over the stringified
coordinates.
-/

/-- The standard base64 alphabet. -/
def base64Table : List Char :=
  "ABCDEFGHIJKLMNOPQRSTUVWXYZabcdefghijklmnopqrstuvwxyz0123456789+/".data

/-- Character for a six-bit group. -/
def sixBitChar (n : Nat) : Char := base64Table.getD n 'A'

/-- Encode one final group of up to three bytes, padding with '='. -/
def b64Chunk : List Nat → List Char
  | [] => []
  | [b0] => [sixBitChar (b0 / 4), sixBitChar (b0 % 4 * 16), '=', '=']
  | [b0, b1] =>
    [sixBitChar (b0 / 4), sixBitChar (b0 % 4 * 16 + b1 / 16),
     sixBitChar (b1 % 16 * 4), '=']
  | b0 :: b1 :: b2 :: _ =>
    [sixBitChar (b0 / 4), sixBitChar (b0 % 4 * 16 + b1 / 16),
     sixBitChar (b1 % 16 * 4 + b2 / 64), sixBitChar (b2 % 64)]

/-- Base64-encode a byte list three bytes at a time. -/
def b64Encode : List Nat → List Char
  | [] => []
  | [b0] => b64Chunk [b0]
  | [b0, b1] => b64Chunk [b0, b1]
  | b0 :: b1 :: b2 :: rest => b64Chunk [b0, b1, b2] ++ b64Encode rest

/-- Stable base64 encoding of a string's UTF-8 bytes, modelling
`Buffer.from(s).toString('base64')`. -/
def base64OfString (s : String) : String :=
  String.mk (b64Encode (s.toUTF8.toList.map (fun b => b.toNat)))

/-- Cache key of `geocodeWithGoogleMaps` (line 9). -/
def googleGeocodeCacheKey (locationName : String) : String :=
  "geocode_google_" ++ base64OfString locationName

/-- Cache key of `geocodeWithMapbox` (line 59). -/
def mapboxGeocodeCacheKey (locationName : String) : String :=
  "geocode_mapbox_" ++ base64OfString locationName

/-- Cache key of `geocodeWithOSM` (line 109). -/
def osmGeocodeCacheKey (locationName : String) : String :=
  "geocode_osm_" ++ base64OfString locationName

/-- Cache key of `reverseGeocode` (line 201), over the stringified
latitude and longitude. -/
def reverseGeocodeCacheKey (latStr lonStr : String) : String :=
  "reverse_geocode_" ++ latStr ++ "_" ++ lonStr

/-- Two appends with equal suffixes and distinct literal stems differ. -/
theorem append_ne_of_stem_ne (p q x : String) (hne : p.data ≠ q.data) :
    p ++ x ≠ q ++ x := by
  intro h
  have hdata := congrArg String.data h
  rw [String.data_append, String.data_append] at hdata
  exact hne (List.append_cancel_right hdata)

/-- Two appends whose literal stems start with distinct characters differ. -/
theorem append_ne_of_headChar {c d : Char} {cs ds : List Char}
    (p q x y : String) (hp : p.data = c :: cs) (hq : q.data = d :: ds)
    (hcd : c ≠ d) : p ++ x ≠ q ++ y := by
  intro h
  have hdata := congrArg String.data h
  rw [String.data_append, String.data_append, hp, hq,
    List.cons_append, List.cons_append] at hdata
  injection hdata with h1 _
  exact hcd h1

/-- C8: each provider's geocode cache key is the operation name, the
provider name and the base64 encoding of the location text, so the three
providers always get distinct keys for the same input; reverse geocoding
uses the separate `reverse_geocode_` scheme over stringified coordinates,
distinct from every forward key. -/
theorem geocodeCacheKeys_provider_scoped (locationName latStr lonStr : String) :
    googleGeocodeCacheKey locationName
        = "geocode_google_" ++ base64OfString locationName
    ∧ mapboxGeocodeCacheKey locationName
        = "geocode_mapbox_" ++ base64OfString locationName
    ∧ osmGeocodeCacheKey locationName
        = "geocode_osm_" ++ base64OfString locationName
    ∧ reverseGeocodeCacheKey latStr lonStr
        = "reverse_geocode_" ++ latStr ++ "_" ++ lonStr
    ∧ googleGeocodeCacheKey locationName ≠ mapboxGeocodeCacheKey locationName
    ∧ googleGeocodeCacheKey locationName ≠ osmGeocodeCacheKey locationName
    ∧ mapboxGeocodeCacheKey locationName ≠ osmGeocodeCacheKey locationName
    ∧ reverseGeocodeCacheKey latStr lonStr ≠ googleGeocodeCacheKey locationName
    ∧ reverseGeocodeCacheKey latStr lonStr ≠ mapboxGeocodeCacheKey locationName
    ∧ reverseGeocodeCacheKey latStr lonStr ≠ osmGeocodeCacheKey locationName := by
  have hrev : reverseGeocodeCacheKey latStr lonStr
      = "reverse_geocode_" ++ (latStr ++ ("_" ++ lonStr)) := by
    unfold reverseGeocodeCacheKey
    rw [String.append_assoc, String.append_assoc]
  have hr : ("reverse_geocode_" : String).data = 'r' :: "everse_geocode_".data := by
    decide
  have hg : ("geocode_google_" : String).data = 'g' :: "eocode_google_".data := by
    decide
  have hm : ("geocode_mapbox_" : String).data = 'g' :: "eocode_mapbox_".data := by
    decide
  have ho : ("geocode_osm_" : String).data = 'g' :: "eocode_osm_".data := by
    decide
  refine ⟨rfl, rfl, rfl, rfl, ?_, ?_, ?_, ?_, ?_, ?_⟩
  · exact append_ne_of_stem_ne "geocode_google_" "geocode_mapbox_"
      (base64OfString locationName) (by decide)
  · exact append_ne_of_stem_ne "geocode_google_" "geocode_osm_"
      (base64OfString locationName) (by decide)
  · exact append_ne_of_stem_ne "geocode_mapbox_" "geocode_osm_"
      (base64OfString locationName) (by decide)
  · rw [hrev]
    exact append_ne_of_headChar "reverse_geocode_" "geocode_google_"
      (latStr ++ ("_" ++ lonStr)) (base64OfString locationName) hr hg
      (by decide)
  · rw [hrev]
    exact append_ne_of_headChar "reverse_geocode_" "geocode_mapbox_"
      (latStr ++ ("_" ++ lonStr)) (base64OfString locationName) hr hm
      (by decide)
  · rw [hrev]
    exact append_ne_of_headChar "reverse_geocode_" "geocode_osm_"
      (latStr ++ ("_" ++ lonStr)) (base64OfString locationName) hr ho
      (by decide)
